/-
Verification of the ERP backend's request-context core: the sliding-window
rate limiter, rule resolution, middleware dispatch, JWT issue/verify, and
multi-strategy tenant resolution.  Python floats (Unix timestamps from
`time.time()`) are modelled as rationals; Python `int()` truncation and
string operations are given explicit executable models.
-/

import Mathlib

/-! ## Python primitive models -/

/-- Python `str.split(sep)` for a single-character separator: splits on every
occurrence, keeping empty fragments (so `"".split(c) = [""]`). -/
def splitCharAux (c : Char) : List Char → List (List Char)
  | [] => [[]]
  | x :: xs =>
    match splitCharAux c xs with
    | [] => [[]]
    | g :: gs => if x = c then [] :: g :: gs else (x :: g) :: gs

/-- Python `s.split(c)` as a list of strings. -/
def pySplit (s : String) (c : Char) : List String :=
  (splitCharAux c s.data).map String.mk

/-- Python `s.startswith(t)`. -/
def pyStartsWith (s t : String) : Bool :=
  t.data.isPrefixOf s.data

/-- Python truthiness of an optional string: `None` and `""` are falsy. -/
def pyTruthy : Option String → Bool
  | none => false
  | some s => s ≠ ""

/-- Python `int(x)` on a float: truncation toward zero. -/
def pyInt (q : ℚ) : ℤ := q.num.tdiv q.den

/-- On non-negative values, Python truncation agrees with the floor. -/
theorem pyInt_eq_floor (q : ℚ) (h : 0 ≤ q) : pyInt q = ⌊q⌋ := by
  rw [pyInt, Int.tdiv_eq_ediv (Rat.num_nonneg.mpr h) (by positivity), Rat.floor_def]

example : pySplit "t2.example.com" '.' = ["t2", "example", "com"] := by decide
example : pySplit "/api/hr/employees" '/' = ["", "api", "hr", "employees"] := by decide
example : pySplit "" '.' = [""] := by decide

/-! ## `InMemoryRateLimiter` (src/erp-backend/app/middleware/rate_limit.py)

`self.storage : Dict[str, List[float]]` is modelled as an association list;
an assignment shadows the previous binding, so `List.lookup` returns the
latest value, matching dict semantics. -/

/-- The limiter's `storage` dictionary: key → recorded request timestamps. -/
def Storage := List (String × List ℚ)

/-- Python dict assignment `storage[key] = v` (observed through `lookup`). -/
def storeSet (st : Storage) (key : String) (v : List ℚ) : Storage :=
  (key, v) :: st

/-- `List.lookup` over the storage. -/
def storeGet (st : Storage) (key : String) : Option (List ℚ) :=
  List.lookup key st

/-- Python `min` over a non-empty list (0 as a dummy on `[]`, never used). -/
def minList : List ℚ → ℚ
  | [] => 0
  | t :: ts => ts.foldl min t

/-- The `info` dictionary returned by `is_allowed`. -/
structure RateInfo where
  limit : ℤ
  remaining : ℤ
  reset : ℤ
  retryAfter : ℤ
deriving DecidableEq, Repr

/-- `InMemoryRateLimiter.is_allowed(key, limit, window)` at time `now`
(`time.time()` modelled as a rational parameter).  Returns the allowed flag,
the info dict and the updated storage. -/
def is_allowed (st : Storage) (key : String) (limit window : ℤ) (now : ℚ) :
    Bool × RateInfo × Storage :=
  let ts := ((storeGet st key).getD []).filter (fun t => decide (now - t < (window : ℚ)))
  let request_count : ℤ := ts.length
  let allowed : Bool := decide (request_count < limit)
  let ts' := if allowed then ts ++ [now] else ts
  let retry_after : ℤ :=
    if allowed = false ∧ ts ≠ [] then
      pyInt ((window : ℚ) - (now - minList ts)) + 1
    else 0
  (allowed,
   { limit := limit
     remaining := max 0 (limit - request_count - (if allowed then 1 else 0))
     reset := pyInt (now + (window : ℚ))
     retryAfter := retry_after },
   storeSet st key ts')

/-! ## Rate-limit rule resolution (`RateLimitMiddleware._get_rate_limit_config`)

`self.route_limits` is a Python dict populated by `add_route_limit`; since
dicts iterate in insertion order, it is modelled as an association list in
registration order. -/

/-- `RateLimitConfig(requests, window)`.  Every registration in `main.py`
passes `key_func=None`, so all configs use the default key function and the
structure carries only the two numeric fields. -/
structure RateLimitConfig where
  requests : ℤ
  window : ℤ
deriving DecidableEq, Repr

/-- `RateLimitMiddleware._get_rate_limit_config(path)`: exact dict hit, else
the first registered pattern that is a prefix of the path, else the default
limit/window given to the middleware constructor. -/
def get_rate_limit_config (defaultLimit defaultWindow : ℤ)
    (routeLimits : List (String × RateLimitConfig)) (path : String) :
    RateLimitConfig :=
  match routeLimits.lookup path with
  | some config => config
  | none =>
    match routeLimits.find? (fun pc => pyStartsWith path pc.1) with
    | some pc => pc.2
    | none => ⟨defaultLimit, defaultWindow⟩

/-- The three `add_route_limit` registrations of `main.py`, in order. -/
def mainRouteLimits : List (String × RateLimitConfig) :=
  [("/api/hr/employees/public/directory", ⟨10, 60⟩),
   ("/api/hr/employees/public/", ⟨20, 60⟩),
   ("/api/hr/employees/public/contact", ⟨5, 3600⟩)]

/-- The `exempt_paths` configured in `main.py`. -/
def mainExemptPaths : List String :=
  ["/health", "/docs", "/redoc", "/openapi.json", "/api/docs", "/api/redoc"]

/-- The claim's resolution rule, written from its words: exact match, else
the registered rule with the longest matching prefix, else the default. -/
def longestMatchResolve (defaultLimit defaultWindow : ℤ)
    (routeLimits : List (String × RateLimitConfig)) (path : String) :
    RateLimitConfig :=
  match routeLimits.lookup path with
  | some config => config
  | none =>
    match (routeLimits.filter (fun pc => pyStartsWith path pc.1)).foldl
        (fun best pc =>
          match best with
          | none => some pc
          | some b => if pc.1.length > b.1.length then some pc else some b)
        none with
    | some pc => pc.2
    | none => ⟨defaultLimit, defaultWindow⟩

/-! ## Request model

The fields of the inbound request that the verified code reads: the
`X-Tenant-ID` and `Host` headers, the URL path, the pre-resolved tenant id on
`request.state`, the `X-Forwarded-For` header and the client address. -/

structure Request where
  xTenantId : Option String
  host : String
  path : String
  stateTenantId : Option String
  forwardedFor : Option String
  clientHost : Option String
deriving DecidableEq, Repr

/-- Python `str.strip()`: drop leading and trailing whitespace. -/
def pyStrip (s : String) : String :=
  String.mk (((s.data.dropWhile Char.isWhitespace).reverse.dropWhile
    Char.isWhitespace).reverse)

/-- `RateLimitConfig._default_key_func`: client IP, preferring the first
entry of a truthy `X-Forwarded-For`. -/
def default_key_func (req : Request) : String :=
  let client_ip :=
    if pyTruthy req.forwardedFor then
      pyStrip ((pySplit (req.forwardedFor.getD "") ',').headD "")
    else req.clientHost.getD "unknown"
  "rate_limit:" ++ client_ip

/-- `RateLimitMiddleware._generate_key`: base key, `:tenant:` suffix when the
`X-Tenant-ID` header is truthy, and a short digest of the path.  The
`hashlib.md5(...).hexdigest()[:8]` digest is an external library call and is
passed in as an uninterpreted function; no claim depends on its values. -/
def generate_key (md5hex8 : String → String) (req : Request) : String :=
  let base_key := default_key_func req
  let base_key :=
    if pyTruthy req.xTenantId then
      base_key ++ ":tenant:" ++ req.xTenantId.getD ""
    else base_key
  base_key ++ ":path:" ++ md5hex8 req.path

/-- An HTTP response: status, headers (newest binding first, read through
`List.lookup`, matching mutable-header assignment) and body. -/
structure Response where
  status : ℕ
  headers : List (String × String)
  body : String
deriving DecidableEq, Repr

/-- `response.headers[name] = value`. -/
def setHeader (r : Response) (name value : String) : Response :=
  { r with headers := (name, value) :: r.headers }

/-- The fixed 429 body of the middleware. -/
def rateLimitBody : String :=
  "\x7b\"detail\":\"Rate limit exceeded. Please try again later.\"\x7d"

/-- `any(path.startswith(exempt) for exempt in self.exempt_paths)`. -/
def is_exempt (exemptPaths : List String) (path : String) : Bool :=
  exemptPaths.any (fun e => pyStartsWith path e)

/-- `RateLimitMiddleware.dispatch`.  The limiter backend is a parameter
returning `Except` (an exception in `is_allowed` is the `.error` case);
`callNext` is the downstream handler.  Returns the response and whether the
downstream handler was invoked. -/
def dispatch (exemptPaths : List String) (defaultLimit defaultWindow : ℤ)
    (routeLimits : List (String × RateLimitConfig))
    (md5hex8 : String → String)
    (limiter : String → ℤ → ℤ → Except String (Bool × RateInfo))
    (req : Request) (callNext : Request → Response) : Response × Bool :=
  if is_exempt exemptPaths req.path then (callNext req, true)
  else
    let config := get_rate_limit_config defaultLimit defaultWindow routeLimits req.path
    let key := generate_key md5hex8 req
    match limiter key config.requests config.window with
    | .error _ => (callNext req, true)
    | .ok (allowed, info) =>
      if allowed = false then
        (⟨429,
          [("X-RateLimit-Limit", toString info.limit),
           ("X-RateLimit-Remaining", toString info.remaining),
           ("X-RateLimit-Reset", toString info.reset),
           ("Retry-After", toString info.retryAfter)],
          rateLimitBody⟩, false)
      else
        (setHeader (setHeader (setHeader (callNext req)
            "X-RateLimit-Limit" (toString info.limit))
            "X-RateLimit-Remaining" (toString info.remaining))
            "X-RateLimit-Reset" (toString info.reset), true)

/-! ## Token service (src/erp-backend/app/dependencies.py)

A token is identified with its decoded claim dictionary: the claims of this
development only ever verify tokens produced by the issue functions, for
which the signature is valid by construction.  Timestamps are Unix seconds
(`ℤ`). -/

/-- The closed role set of `app/schemas.py`. -/
inductive UserRole where
  | admin | manager | finance | inventory | hr | sales | viewer
deriving DecidableEq, Repr

/-- The string value of a role. -/
def UserRole.val : UserRole → String
  | .admin => "admin"
  | .manager => "manager"
  | .finance => "finance"
  | .inventory => "inventory"
  | .hr => "hr"
  | .sales => "sales"
  | .viewer => "viewer"

/-- The `UserRole(role)` enum constructor: `none` models `ValueError`. -/
def userRole? (s : String) : Option UserRole :=
  if s = "admin" then some .admin
  else if s = "manager" then some .manager
  else if s = "finance" then some .finance
  else if s = "inventory" then some .inventory
  else if s = "hr" then some .hr
  else if s = "sales" then some .sales
  else if s = "viewer" then some .viewer
  else none

/-- A decoded JWT claim dictionary (`dict.get` semantics via `Option`);
the `"type"` claim is the field `typ` (`type` is reserved in Lean). -/
structure Payload where
  sub : Option String
  email : Option String
  role : Option String
  exp : Option ℤ
  iat : Option ℤ
  typ : Option String
deriving DecidableEq, Repr

/-- `settings.JWT_ACCESS_TOKEN_EXPIRE_MINUTES` (app/config.py). -/
def JWT_ACCESS_TOKEN_EXPIRE_MINUTES : ℤ := 60

/-- `create_access_token(data, expires_delta)` for the caller-supplied
`data = {sub, email, role}`; `expires_delta` in seconds. -/
def create_access_token (sub email role : String) (now : ℤ)
    (expiresDelta : Option ℤ) : Payload :=
  { sub := some sub
    email := some email
    role := some role
    exp := some (now + expiresDelta.getD (JWT_ACCESS_TOKEN_EXPIRE_MINUTES * 60))
    iat := some now
    typ := some "access" }

/-- `TokenData` (app/schemas.py). -/
structure TokenData where
  user_id : String
  email : String
  role : UserRole
  exp : Option ℤ
deriving DecidableEq, Repr

/-- An `HTTPException`: status code and detail message. -/
structure HTTPError where
  status : ℕ
  detail : String
deriving DecidableEq, Repr

/-- The explicit claim validation of `verify_token` after a successful
decode: token type, required fields (Python truthiness), closed role set,
and the explicit expiry check. -/
def verify_claims (payload : Payload) (token_type : String) (now : ℤ) :
    Except HTTPError TokenData :=
  if payload.typ ≠ some token_type then
    .error ⟨401, "Invalid token type. Expected " ++ token_type ++ " token"⟩
  else if pyTruthy payload.sub = false ∨ pyTruthy payload.email = false ∨
      pyTruthy payload.role = false then
    .error ⟨401, "Invalid token payload - missing required fields"⟩
  else
    match userRole? (payload.role.getD "") with
    | none => .error ⟨401, "Invalid role in token"⟩
    | some user_role =>
      match payload.exp with
      | some e =>
        if e < now then .error ⟨401, "Token has expired"⟩
        else .ok ⟨payload.sub.getD "", payload.email.getD "", user_role, some e⟩
      | none => .ok ⟨payload.sub.getD "", payload.email.getD "", user_role, none⟩

/-- `verify_token(token, token_type)`.  The decoding library validates the
registered `exp` claim before the function's own checks run
(`ExpiredSignatureError`, handled as the same 401 "Token has expired"); on a
well-signed token it otherwise yields the claim dictionary unchanged. -/
def verify_token (payload : Payload) (token_type : String) (now : ℤ) :
    Except HTTPError TokenData :=
  match payload.exp with
  | some e =>
    if e < now then .error ⟨401, "Token has expired"⟩
    else verify_claims payload token_type now
  | none => verify_claims payload token_type now

/-! ## Tenant resolution (src/erp-backend/app/dependencies/tenant.py) -/

/-- `HeaderTenantStrategy.extract_tenant_id`: the `X-Tenant-ID` header value
when truthy. -/
def header_extract (req : Request) : Option String :=
  if pyTruthy req.xTenantId then req.xTenantId else none

/-- `SubdomainTenantStrategy.extract_tenant_id`: the first `.`-label of the
host when the host has at least three labels. -/
def subdomain_extract (req : Request) : Option String :=
  let parts := pySplit req.host '.'
  if parts.length ≥ 3 then some (parts.headD "") else none

/-- `PathTenantStrategy.extract_tenant_id`: `/api/{tenant_id}/...` when the
segment is truthy and does not start with `_`. -/
def path_extract (req : Request) : Option String :=
  let parts := pySplit req.path '/'
  if parts.length ≥ 3 ∧ parts[1]? = some "api" then
    match parts[2]? with
    | some tid =>
      if tid ≠ "" ∧ pyStartsWith tid "_" = false then some tid else none
    | none => none
  else none

/-- `JWTTenantStrategy.extract_tenant_id`: the pre-resolved
`request.state.tenant_id` when truthy. -/
def jwt_extract (req : Request) : Option String :=
  if pyTruthy req.stateTenantId then req.stateTenantId else none

/-- `extract_tenant_id_from_request`: the strategy loop — first strategy
whose result is truthy wins. -/
def extract_tenant_id_from_request (req : Request) : Option String :=
  if pyTruthy (header_extract req) then header_extract req
  else if pyTruthy (subdomain_extract req) then subdomain_extract req
  else if pyTruthy (path_extract req) then path_extract req
  else if pyTruthy (jwt_extract req) then jwt_extract req
  else none

/-- `TenantContext` (app/schemas/tenant.py). -/
structure TenantContext where
  tenant_id : String
  tenant_name : String
  domain : String
  is_active : Bool
  settings : Option (List (String × String))
deriving DecidableEq, Repr

/-- One value of the `mock_tenants` dictionary in `validate_tenant`. -/
structure TenantRecord where
  id : String
  name : String
  domain : String
  is_active : Bool
  settings : List (String × String)
deriving DecidableEq, Repr

/-- The `mock_tenants` dictionary. -/
def mock_tenants : List (String × TenantRecord) :=
  [("tenant-1", ⟨"tenant-1", "Acme Corporation", "acme.erp.com", true,
      [("timezone", "UTC"), ("currency", "USD")]⟩),
   ("tenant-2", ⟨"tenant-2", "TechCorp Inc", "techcorp.erp.com", true,
      [("timezone", "EST"), ("currency", "USD")]⟩),
   ("tenant-3", ⟨"tenant-3", "Inactive Tenant", "inactive.erp.com", false, []⟩)]

/-- `validate_tenant(tenant_id)`: 404 when unknown, 403 when inactive,
otherwise the `TenantContext` built from the stored record. -/
def validate_tenant (tenant_id : String) : Except HTTPError TenantContext :=
  match mock_tenants.lookup tenant_id with
  | none =>
    .error ⟨404, "Tenant \x27" ++ tenant_id ++ "\x27 not found"⟩
  | some d =>
    if d.is_active = false then
      .error ⟨403, "Tenant \x27" ++ tenant_id ++ "\x27 is not active"⟩
    else .ok ⟨d.id, d.name, d.domain, d.is_active, some d.settings⟩

/-- `get_tenant_context`: extract, 400 when no strategy yields a tenant id,
otherwise validate. -/
def get_tenant_context (req : Request) : Except HTTPError TenantContext :=
  match extract_tenant_id_from_request req with
  | none =>
    .error ⟨400,
      "Tenant ID is required. Provide via X-Tenant-ID header, subdomain, or URL path"⟩
  | some tid => validate_tenant tid

/-! ### Helper lemmas for the limiter -/

theorem storeGet_storeSet (st : Storage) (k : String) (v : List ℚ) :
    storeGet (storeSet st k v) k = some v := by
  simp [storeGet, storeSet, List.lookup]

theorem foldl_min_mem (t : ℚ) (l : List ℚ) : l.foldl min t ∈ t :: l := by
  induction l generalizing t with
  | nil => simp
  | cons x xs ih =>
    have h := ih (min t x)
    simp only [List.foldl_cons]
    rcases List.mem_cons.1 h with h' | h'
    · rw [h']
      rcases min_choice t x with hm | hm <;> rw [hm] <;> simp
    · exact List.mem_cons_of_mem _ (List.mem_cons_of_mem _ h')

theorem minList_mem (l : List ℚ) (h : l ≠ []) : minList l ∈ l := by
  cases l with
  | nil => exact absurd rfl h
  | cons t ts => exact foldl_min_mem t ts

/-- C1 theorem: the sliding-window check of `InMemoryRateLimiter.is_allowed`.
The general part characterises every call: the allowed flag is exactly
"number of in-window timestamps < limit", the current time is appended to the
key's (pruned) record exactly when allowed, and `remaining` follows the
`max(0, limit - count - (1 if allowed else 0))` formula.  The scenario part
runs limit=5, window=60: five calls at times 0..4 (the fifth allowed with
remaining 0), a sixth at time 5 rejected with positive retry, and a call at
time 64.5 — after the window has fully elapsed — allowed again. -/
theorem is_allowed_sliding_window :
    (∀ (st : Storage) (key : String) (limit window : ℤ) (now : ℚ),
      let record := (storeGet st key).getD []
      let count : ℤ := record.countP (fun t => decide (now - t < (window : ℚ)))
      let r := is_allowed st key limit window now
      (r.1 = true ↔ count < limit) ∧
      storeGet r.2.2 key =
        some (record.filter (fun t => decide (now - t < (window : ℚ))) ++
          (if r.1 then [now] else [])) ∧
      r.2.1.remaining = max 0 (limit - count - (if r.1 then 1 else 0))) ∧
    (let r1 := is_allowed [] "k" 5 60 0
     let r2 := is_allowed r1.2.2 "k" 5 60 1
     let r3 := is_allowed r2.2.2 "k" 5 60 2
     let r4 := is_allowed r3.2.2 "k" 5 60 3
     let r5 := is_allowed r4.2.2 "k" 5 60 4
     let r6 := is_allowed r5.2.2 "k" 5 60 5
     let r7 := is_allowed r6.2.2 "k" 5 60 (129/2)
     r1.1 = true ∧ r2.1 = true ∧ r3.1 = true ∧ r4.1 = true ∧
     r5.1 = true ∧ r5.2.1.remaining = 0 ∧
     r6.1 = false ∧ r6.2.1.retryAfter > 0 ∧
     r7.1 = true) := by
  constructor
  · intro st key limit window now
    refine ⟨?_, ?_, ?_⟩
    · simp [is_allowed, List.countP_eq_length_filter]
    · simp only [is_allowed, storeGet_storeSet]
      by_cases h : ((((storeGet st key).getD []).filter
          (fun t => decide (now - t < (window : ℚ)))).length : ℤ) < limit <;>
        simp [h]
    · simp [is_allowed, List.countP_eq_length_filter]
  · refine ⟨?_, ?_, ?_, ?_, ?_, ?_, ?_, ?_, ?_⟩ <;>
      norm_num [is_allowed, storeGet, storeSet, minList, pyInt_eq_floor, List.lookup]
    all_goals simp

/-- C6 counterexample: with the record `[0]`, limit 1, window 60 and a call at
time 10, the code returns `retry_after = int(60 - (10 - 0)) + 1 = 51`, while
the ceiling of `60 - (10 - 0)` is `50`: the claimed `ceil` formula fails when
the remaining window time is an exact integer. -/
theorem retryAfter_ceiling_counterexample :
    (is_allowed [("k", [0])] "k" 1 60 10).1 = false ∧
    (is_allowed [("k", [0])] "k" 1 60 10).2.1.retryAfter = 51 ∧
    ⌈(60 : ℚ) - ((10 : ℚ) - 0)⌉ = 50 ∧
    (is_allowed [("k", [0])] "k" 1 60 10).2.1.retryAfter ≠
      ⌈(60 : ℚ) - ((10 : ℚ) - 0)⌉ := by
  refine ⟨?_, ?_, ?_, ?_⟩ <;>
    norm_num [is_allowed, storeGet, storeSet, minList, pyInt_eq_floor, List.lookup]

/-- C6 theorem (amended): on a rejection with a non-empty pruned record the
code returns `⌊window - (now - oldest)⌋ + 1` — the floor of the remaining
window time plus one, which coincides with the ceiling exactly when that
quantity is not an integer — and on an allowed call `retry_after = 0`. -/
theorem retryAfter_floor_plus_one
    (st : Storage) (key : String) (limit window : ℤ) (now : ℚ) :
    (∀ _ : (is_allowed st key limit window now).1 = false,
      ∀ _ : ((storeGet st key).getD []).filter
          (fun t => decide (now - t < (window : ℚ))) ≠ [],
      (is_allowed st key limit window now).2.1.retryAfter =
        ⌊(window : ℚ) - (now - minList (((storeGet st key).getD []).filter
          (fun t => decide (now - t < (window : ℚ)))))⌋ + 1) ∧
    (∀ _ : (is_allowed st key limit window now).1 = true,
      (is_allowed st key limit window now).2.1.retryAfter = 0) := by
  set ts := ((storeGet st key).getD []).filter
    (fun t => decide (now - t < (window : ℚ))) with hts
  constructor
  · intro hfalse hne
    have hmem : minList ts ∈ ts := minList_mem ts hne
    have hin : now - minList ts < (window : ℚ) := by
      have := List.of_mem_filter hmem
      exact of_decide_eq_true this
    have hpos : (0 : ℚ) ≤ (window : ℚ) - (now - minList ts) := by linarith
    simp only [is_allowed, ← hts] at hfalse ⊢
    rw [if_pos ⟨hfalse, hne⟩, pyInt_eq_floor _ hpos]
  · intro htrue
    simp only [is_allowed, ← hts] at htrue ⊢
    rw [if_neg]
    intro hcon
    rw [htrue] at hcon
    exact absurd hcon.1 (by decide)

/-- C6 witness: record `[0]`, limit 1, window 60, call at time 9.5 — the
rejection hypothesis holds and the theorem yields `retry_after = ⌊50.5⌋ + 1 =
51`. -/
theorem retryAfter_floor_plus_one_witness :
    (is_allowed [("k", [0])] "k" 1 60 (19/2)).2.1.retryAfter = 51 := by
  have h := (retryAfter_floor_plus_one [("k", [0])] "k" 1 60 (19/2)).1
    (by norm_num [is_allowed, storeGet, minList, List.lookup])
    (by norm_num [storeGet, List.lookup])
  rw [h]
  norm_num [storeGet, minList, List.lookup]

/-- C10 theorem: a call with `limit ≤ 0` on a key whose record is empty is
rejected, records no timestamp (the record stays empty), and reports
`retry_after = 0` — a rejected request with no positive retry hint. -/
theorem nonpositive_limit_rejects
    (st : Storage) (key : String) (limit window : ℤ) (now : ℚ)
    (hlim : limit ≤ 0) (hempty : (storeGet st key).getD [] = []) :
    (is_allowed st key limit window now).1 = false ∧
    (is_allowed st key limit window now).2.1.retryAfter = 0 ∧
    storeGet (is_allowed st key limit window now).2.2 key = some [] := by
  have hcount : (((storeGet st key).getD []).filter
      (fun t => decide (now - t < (window : ℚ)))) = [] := by
    rw [hempty]; rfl
  have hnot : ¬ ((((((storeGet st key).getD []).filter
      (fun t => decide (now - t < (window : ℚ)))).length : ℤ)) < limit) := by
    rw [hcount]
    simp only [List.length_nil, Nat.cast_zero, not_lt]
    exact hlim
  refine ⟨?_, ?_, ?_⟩
  · simp [is_allowed, hnot]
  · simp [is_allowed, hnot, hcount]
  · simp [is_allowed, hnot, hcount, storeGet_storeSet]
    exact hlim

/-- C10 witness: on an empty storage, `is_allowed` with limit 0 rejects with
`retry_after = 0` and leaves the key's record empty. -/
theorem nonpositive_limit_rejects_witness :
    (is_allowed [] "k" 0 60 7).1 = false ∧
    (is_allowed [] "k" 0 60 7).2.1.retryAfter = 0 ∧
    storeGet (is_allowed [] "k" 0 60 7).2.2 "k" = some [] :=
  nonpositive_limit_rejects [] "k" 0 60 7 (le_refl 0) rfl

/-! ## Rule resolution theorems (C5) -/

theorem find?_eq_of_first {α : Type} (p : α → Bool) (l : List α) (i : ℕ)
    (a : α) (hget : l[i]? = some a) (hp : p a = true)
    (hbefore : ∀ j, j < i → ∀ b, l[j]? = some b → p b = false) :
    l.find? p = some a := by
  induction l generalizing i with
  | nil => simp at hget
  | cons x xs ih =>
    cases i with
    | zero =>
      simp only [List.getElem?_cons_zero, Option.some.injEq] at hget
      subst hget
      simp [List.find?, hp]
    | succ n =>
      have hx : p x = false := hbefore 0 (Nat.succ_pos n) x (by simp)
      simp only [List.getElem?_cons_succ] at hget
      rw [List.find?_cons, hx]
      exact ih n hget fun j hj b hb =>
        hbefore (j + 1) (Nat.succ_lt_succ hj) b (by simpa using hb)

/-- C5 counterexample: with the rules registered in `main.py`, the path
`/api/hr/employees/public/contact/info` has no exact rule; the longest
matching registered prefix is `/api/hr/employees/public/contact` (5 requests
per 3600 s), but the code returns the earlier-registered
`/api/hr/employees/public/` rule (20 requests per 60 s). -/
theorem rule_resolution_longest_match_counterexample :
    get_rate_limit_config 100 60 mainRouteLimits
        "/api/hr/employees/public/contact/info" = ⟨20, 60⟩ ∧
    longestMatchResolve 100 60 mainRouteLimits
        "/api/hr/employees/public/contact/info" = ⟨5, 3600⟩ ∧
    (⟨20, 60⟩ : RateLimitConfig) ≠ ⟨5, 3600⟩ := by
  refine ⟨by decide, by decide, by decide⟩

/-- C5 theorem (amended): the applied rule is the exact-match route rule if
registered; otherwise the rule of the *first-registered* pattern (dict
insertion order) that is a prefix of the path — not the longest one;
otherwise the global default. -/
theorem rule_resolution_first_registered_match
    (d w : ℤ) (rl : List (String × RateLimitConfig)) (path : String) :
    (∀ c, rl.lookup path = some c → get_rate_limit_config d w rl path = c) ∧
    (rl.lookup path = none →
      ∀ (i : ℕ) (pc : String × RateLimitConfig),
        rl[i]? = some pc → pyStartsWith path pc.1 = true →
        (∀ j, j < i → ∀ pc' : String × RateLimitConfig, rl[j]? = some pc' →
          pyStartsWith path pc'.1 = false) →
        get_rate_limit_config d w rl path = pc.2) ∧
    (rl.lookup path = none →
      (∀ pc ∈ rl, pyStartsWith path pc.1 = false) →
      get_rate_limit_config d w rl path = ⟨d, w⟩) := by
  refine ⟨?_, ?_, ?_⟩
  · intro c hc
    simp [get_rate_limit_config, hc]
  · intro hnone i pc hget hp hbefore
    have hfind : rl.find? (fun pc => pyStartsWith path pc.1) = some pc :=
      find?_eq_of_first _ rl i pc hget hp hbefore
    simp [get_rate_limit_config, hnone, hfind]
  · intro hnone hall
    have hfind : rl.find? (fun pc => pyStartsWith path pc.1) = none :=
      List.find?_eq_none.mpr fun x hx => by simp [hall x hx]
    simp [get_rate_limit_config, hnone, hfind]

/-- C5 witness: on the counterexample path the first-registered matching
pattern is the second registration `/api/hr/employees/public/`, and the
amended theorem yields its 20-per-60 rule. -/
theorem rule_resolution_first_registered_match_witness :
    get_rate_limit_config 100 60 mainRouteLimits
        "/api/hr/employees/public/contact/info" = ⟨20, 60⟩ :=
  (rule_resolution_first_registered_match 100 60 mainRouteLimits
      "/api/hr/employees/public/contact/info").2.1 (by decide) 1
    ("/api/hr/employees/public/", ⟨20, 60⟩) (by decide) (by decide)
    (by decide)

/-! ## Middleware dispatch theorems (C7, C8) -/

/-- C7 theorem: for a non-exempt path on which the limiter returns a result,
the response carries the `X-RateLimit-Limit`, `X-RateLimit-Remaining` and
`X-RateLimit-Reset` headers with the info values; on a rejection it
additionally carries `Retry-After`, has status 429 and the fixed JSON body,
and the downstream handler is never invoked. -/
theorem dispatch_response_contract
    (exemptPaths : List String) (dL dW : ℤ)
    (rl : List (String × RateLimitConfig)) (md5hex8 : String → String)
    (limiter : String → ℤ → ℤ → Except String (Bool × RateInfo))
    (req : Request) (callNext : Request → Response)
    (allowed : Bool) (info : RateInfo)
    (hne : is_exempt exemptPaths req.path = false)
    (hlim : limiter (generate_key md5hex8 req)
        (get_rate_limit_config dL dW rl req.path).requests
        (get_rate_limit_config dL dW rl req.path).window =
      .ok (allowed, info)) :
    ((dispatch exemptPaths dL dW rl md5hex8 limiter req callNext).1.headers.lookup
        "X-RateLimit-Limit" = some (toString info.limit) ∧
      (dispatch exemptPaths dL dW rl md5hex8 limiter req callNext).1.headers.lookup
        "X-RateLimit-Remaining" = some (toString info.remaining) ∧
      (dispatch exemptPaths dL dW rl md5hex8 limiter req callNext).1.headers.lookup
        "X-RateLimit-Reset" = some (toString info.reset)) ∧
    (allowed = false →
      (dispatch exemptPaths dL dW rl md5hex8 limiter req callNext).1.headers.lookup
        "Retry-After" = some (toString info.retryAfter) ∧
      (dispatch exemptPaths dL dW rl md5hex8 limiter req callNext).1.status = 429 ∧
      (dispatch exemptPaths dL dW rl md5hex8 limiter req callNext).1.body =
        rateLimitBody ∧
      (dispatch exemptPaths dL dW rl md5hex8 limiter req callNext).2 = false) := by
  cases allowed with
  | false =>
    simp [dispatch, hne, hlim, List.lookup, setHeader]
  | true =>
    simp [dispatch, hne, hlim, List.lookup, setHeader]

/-- C7 witness: a rejected request to the non-exempt path `/api/finance/x`
with a constant limiter backend — all four headers present, status 429,
fixed body, downstream not called. -/
theorem dispatch_response_contract_witness :
    (is_exempt mainExemptPaths "/api/finance/x" = false) ∧
    ((dispatch mainExemptPaths 100 60 mainRouteLimits (fun _ => "h")
        (fun _ _ _ => .ok (false, ⟨100, 0, 160, 30⟩))
        ⟨none, "localhost", "/api/finance/x", none, none, some "1.2.3.4"⟩
        (fun _ => ⟨200, [], "ok"⟩)).1.headers.lookup
      "Retry-After" = some (toString (30 : ℤ)) ∧
    (dispatch mainExemptPaths 100 60 mainRouteLimits (fun _ => "h")
        (fun _ _ _ => .ok (false, ⟨100, 0, 160, 30⟩))
        ⟨none, "localhost", "/api/finance/x", none, none, some "1.2.3.4"⟩
        (fun _ => ⟨200, [], "ok"⟩)).1.status = 429 ∧
    (dispatch mainExemptPaths 100 60 mainRouteLimits (fun _ => "h")
        (fun _ _ _ => .ok (false, ⟨100, 0, 160, 30⟩))
        ⟨none, "localhost", "/api/finance/x", none, none, some "1.2.3.4"⟩
        (fun _ => ⟨200, [], "ok"⟩)).1.body = rateLimitBody ∧
    (dispatch mainExemptPaths 100 60 mainRouteLimits (fun _ => "h")
        (fun _ _ _ => .ok (false, ⟨100, 0, 160, 30⟩))
        ⟨none, "localhost", "/api/finance/x", none, none, some "1.2.3.4"⟩
        (fun _ => ⟨200, [], "ok"⟩)).2 = false) :=
  ⟨by decide,
   (dispatch_response_contract mainExemptPaths 100 60 mainRouteLimits
      (fun _ => "h") (fun _ _ _ => .ok (false, ⟨100, 0, 160, 30⟩))
      ⟨none, "localhost", "/api/finance/x", none, none, some "1.2.3.4"⟩
      (fun _ => ⟨200, [], "ok"⟩) false ⟨100, 0, 160, 30⟩
      (by decide) rfl).2 rfl⟩

/-- C8 theorem: when the limiter backend raises (the `.error` case) on a
non-exempt request, the middleware forwards the request downstream and
returns the downstream response unchanged — it fails open and never produces
a limiter-caused error response. -/
theorem dispatch_fails_open
    (exemptPaths : List String) (dL dW : ℤ)
    (rl : List (String × RateLimitConfig)) (md5hex8 : String → String)
    (limiter : String → ℤ → ℤ → Except String (Bool × RateInfo))
    (req : Request) (callNext : Request → Response) (e : String)
    (hne : is_exempt exemptPaths req.path = false)
    (hlim : limiter (generate_key md5hex8 req)
        (get_rate_limit_config dL dW rl req.path).requests
        (get_rate_limit_config dL dW rl req.path).window = .error e) :
    dispatch exemptPaths dL dW rl md5hex8 limiter req callNext =
      (callNext req, true) := by
  simp [dispatch, hne, hlim]

/-- C8 witness: a limiter backend that always raises; the request to the
non-exempt path `/api/finance/x` yields the downstream response itself. -/
theorem dispatch_fails_open_witness :
    dispatch mainExemptPaths 100 60 mainRouteLimits (fun _ => "h")
        (fun _ _ _ => .error "redis unreachable")
        ⟨none, "localhost", "/api/finance/x", none, none, some "1.2.3.4"⟩
        (fun _ => ⟨200, [], "ok"⟩) =
      ((⟨200, [], "ok"⟩ : Response), true) :=
  dispatch_fails_open mainExemptPaths 100 60 mainRouteLimits (fun _ => "h")
    (fun _ _ _ => .error "redis unreachable")
    ⟨none, "localhost", "/api/finance/x", none, none, some "1.2.3.4"⟩
    (fun _ => ⟨200, [], "ok"⟩) "redis unreachable" (by decide) rfl

/-! ## Token service theorems (C2) -/

theorem userRole?_val (r : UserRole) : userRole? r.val = some r := by
  cases r <;> rfl

theorem userRole_val_ne_empty (r : UserRole) : r.val ≠ "" := by
  cases r <;> decide

/-- C2 counterexample: the claim quantifies over *every* subject and email,
but a token issued for the empty subject `""` fails verification (Python
truthiness treats `""` as missing), instead of succeeding with matching
claims. -/
theorem verify_issue_empty_subject_counterexample :
    verify_token (create_access_token "" "a@b.c" UserRole.admin.val 0 none)
        "access" 0 =
      .error ⟨401, "Invalid token payload - missing required fields"⟩ := rfl

/-- C2 theorem (amended): for every *non-empty* subject and email and every
role of the closed role set, verifying a freshly issued, unexpired access
token with expected type `access` succeeds with exactly the issued claims;
verifying the same token with expected type `refresh` fails with the 401
token-type-mismatch error.  Failures return an `HTTPError` and no
`TokenData`, so the caller receives no claims on any failure. -/
theorem verify_issue_roundtrip
    (sub email : String) (role : UserRole) (issued verifyTime : ℤ)
    (delta : Option ℤ)
    (hsub : sub ≠ "") (hemail : email ≠ "")
    (hfresh : ¬ (issued + delta.getD (JWT_ACCESS_TOKEN_EXPIRE_MINUTES * 60) <
      verifyTime)) :
    verify_token (create_access_token sub email role.val issued delta)
        "access" verifyTime =
      .ok ⟨sub, email, role,
        some (issued + delta.getD (JWT_ACCESS_TOKEN_EXPIRE_MINUTES * 60))⟩ ∧
    verify_token (create_access_token sub email role.val issued delta)
        "refresh" verifyTime =
      .error ⟨401, "Invalid token type. Expected refresh token"⟩ := by
  constructor
  · simp [verify_token, verify_claims, create_access_token, pyTruthy,
      userRole?_val, hsub, hemail, hfresh]
    exact userRole_val_ne_empty role
  · simp [verify_token, verify_claims, create_access_token, hfresh]

/-- C2 witness: subject `u1`, email `u1@erp.com`, role `finance`, issued at
time 0 with the default 60-minute ttl, verified at time 100. -/
theorem verify_issue_roundtrip_witness :
    verify_token (create_access_token "u1" "u1@erp.com" UserRole.finance.val
        0 none) "access" 100 =
      .ok ⟨"u1", "u1@erp.com", .finance, some 3600⟩ ∧
    verify_token (create_access_token "u1" "u1@erp.com" UserRole.finance.val
        0 none) "refresh" 100 =
      .error ⟨401, "Invalid token type. Expected refresh token"⟩ := by
  have h := verify_issue_roundtrip "u1" "u1@erp.com" .finance 0 100 none
    (by decide) (by decide) (by decide)
  simpa using h

/-! ## Tenant resolution theorems (C3, C4, C9) -/

/-- C3 theorem: the strategy chain evaluates header, subdomain, path, then
request-state in that order and returns the first truthy result (`none` when
all fail); the subdomain strategy yields nothing on hosts with fewer than 3
labels; the path strategy yields the `/api/{id}/...` segment when it is
non-empty and not `_`-prefixed; and concretely a request with header
`X-Tenant-ID: t1` and host `t2.example.com` resolves to `t1` whatever its
path and state carry. -/
theorem tenant_extraction_strategy_order :
    (∀ req : Request,
      (pyTruthy (header_extract req) = true →
        extract_tenant_id_from_request req = header_extract req) ∧
      (pyTruthy (header_extract req) = false →
        pyTruthy (subdomain_extract req) = true →
        extract_tenant_id_from_request req = subdomain_extract req) ∧
      (pyTruthy (header_extract req) = false →
        pyTruthy (subdomain_extract req) = false →
        pyTruthy (path_extract req) = true →
        extract_tenant_id_from_request req = path_extract req) ∧
      (pyTruthy (header_extract req) = false →
        pyTruthy (subdomain_extract req) = false →
        pyTruthy (path_extract req) = false →
        pyTruthy (jwt_extract req) = true →
        extract_tenant_id_from_request req = jwt_extract req) ∧
      (pyTruthy (header_extract req) = false →
        pyTruthy (subdomain_extract req) = false →
        pyTruthy (path_extract req) = false →
        pyTruthy (jwt_extract req) = false →
        extract_tenant_id_from_request req = none)) ∧
    (∀ req : Request, (pySplit req.host '.').length < 3 →
      subdomain_extract req = none) ∧
    (∀ (req : Request) (seg : String),
      3 ≤ (pySplit req.path '/').length →
      (pySplit req.path '/')[1]? = some "api" →
      (pySplit req.path '/')[2]? = some seg →
      seg ≠ "" → pyStartsWith seg "_" = false →
      path_extract req = some seg) ∧
    (∀ (path : String) (state : Option String),
      extract_tenant_id_from_request
        ⟨some "t1", "t2.example.com", path, state, none, none⟩ = some "t1") := by
  refine ⟨?_, ?_, ?_, ?_⟩
  · intro req
    refine ⟨?_, ?_, ?_, ?_, ?_⟩ <;> intros <;>
      simp_all [extract_tenant_id_from_request]
  · intro req hlt
    simp [subdomain_extract, Nat.not_le.mpr hlt]
  · intro req seg hlen hapi hseg hne hus
    simp [path_extract, hlen, hapi, hseg, hne, hus]
  · intro path state
    simp [extract_tenant_id_from_request, header_extract, pyTruthy]

/-- C3 witness: the header-wins instance at path `/api/x/y` with a
pre-resolved state tenant — the chain returns the header value `t1`. -/
theorem tenant_extraction_strategy_order_witness :
    extract_tenant_id_from_request
      ⟨some "t1", "t2.example.com", "/api/x/y", some "t9", none, none⟩ =
      some "t1" := by
  have h := tenant_extraction_strategy_order
  exact (h.1 ⟨some "t1", "t2.example.com", "/api/x/y", some "t9", none, none⟩).1
    (by decide)

/-- C9 theorem: with no `X-Tenant-ID` header and a host of fewer than three
labels, a path of the form `/api/{seg}/...` (segment non-empty, not
`_`-prefixed) makes tenant extraction return the literal route segment —
extraction never reports a missing tenant on such API paths. -/
theorem api_path_resolves_route_segment
    (req : Request) (seg : String)
    (hheader : req.xTenantId = none)
    (hhost : (pySplit req.host '.').length < 3)
    (hlen : 3 ≤ (pySplit req.path '/').length)
    (hapi : (pySplit req.path '/')[1]? = some "api")
    (hseg : (pySplit req.path '/')[2]? = some seg)
    (hne : seg ≠ "") (hus : pyStartsWith seg "_" = false) :
    extract_tenant_id_from_request req = some seg := by
  have hpath : path_extract req = some seg := by
    simp [path_extract, hlen, hapi, hseg, hne, hus]
  have hhdr : header_extract req = none := by
    simp [header_extract, hheader, pyTruthy]
  have hsub : subdomain_extract req = none := by
    simp [subdomain_extract, Nat.not_le.mpr hhost]
  simp [extract_tenant_id_from_request, hhdr, hsub, hpath, pyTruthy, hne]

/-- C9 witness: the ordinary route `/api/hr/employees` on host `localhost`
resolves the literal segment `hr` as the tenant id. -/
theorem api_path_resolves_route_segment_witness :
    extract_tenant_id_from_request
      ⟨none, "localhost", "/api/hr/employees", none, none, none⟩ = some "hr" :=
  api_path_resolves_route_segment
    ⟨none, "localhost", "/api/hr/employees", none, none, none⟩ "hr"
    rfl (by decide) (by decide) (by decide) (by decide) (by decide) (by decide)

/-- C4 theorem: `get_tenant_context` returns the 400 error when no strategy
yields a tenant id; `validate_tenant` returns 404 for an unknown id, 403 for
an existing inactive tenant (such as `tenant-3`), and for an existing active
tenant a `TenantContext` whose fields equal the stored record's. -/
theorem tenant_context_errors
    (req : Request) (tid : String) (d : TenantRecord) :
    (extract_tenant_id_from_request req = none →
      get_tenant_context req = .error ⟨400,
        "Tenant ID is required. Provide via X-Tenant-ID header, subdomain, or URL path"⟩) ∧
    (mock_tenants.lookup tid = none →
      validate_tenant tid =
        .error ⟨404, "Tenant \x27" ++ tid ++ "\x27 not found"⟩) ∧
    (mock_tenants.lookup tid = some d → d.is_active = false →
      validate_tenant tid =
        .error ⟨403, "Tenant \x27" ++ tid ++ "\x27 is not active"⟩) ∧
    (mock_tenants.lookup tid = some d → d.is_active = true →
      validate_tenant tid = .ok ⟨d.id, d.name, d.domain, d.is_active,
        some d.settings⟩) := by
  refine ⟨?_, ?_, ?_, ?_⟩
  · intro h
    simp [get_tenant_context, h]
  · intro h
    simp [validate_tenant, h]
  · intro h hin
    simp [validate_tenant, h, hin]
  · intro h hact
    simp [validate_tenant, h, hact]

/-- C4 witness: a bare request yields the 400 error; `unknown-id` yields
404; `tenant-3` (inactive) yields 403; `tenant-1` (active) yields its stored
context. -/
theorem tenant_context_errors_witness :
    get_tenant_context ⟨none, "localhost", "/", none, none, none⟩ =
      .error ⟨400,
        "Tenant ID is required. Provide via X-Tenant-ID header, subdomain, or URL path"⟩ ∧
    validate_tenant "unknown-id" =
      .error ⟨404, "Tenant \x27unknown-id\x27 not found"⟩ ∧
    validate_tenant "tenant-3" =
      .error ⟨403, "Tenant \x27tenant-3\x27 is not active"⟩ ∧
    validate_tenant "tenant-1" =
      .ok ⟨"tenant-1", "Acme Corporation", "acme.erp.com", true,
        some [("timezone", "UTC"), ("currency", "USD")]⟩ := by
  refine ⟨?_, ?_, ?_, ?_⟩
  · exact (tenant_context_errors ⟨none, "localhost", "/", none, none, none⟩
      "" ⟨"", "", "", false, []⟩).1 (by decide)
  · exact (tenant_context_errors ⟨none, "localhost", "/", none, none, none⟩
      "unknown-id" ⟨"", "", "", false, []⟩).2.1 (by decide)
  · exact (tenant_context_errors ⟨none, "localhost", "/", none, none, none⟩
      "tenant-3" ⟨"tenant-3", "Inactive Tenant", "inactive.erp.com", false,
        []⟩).2.2.1 (by decide) rfl
  · exact (tenant_context_errors ⟨none, "localhost", "/", none, none, none⟩
      "tenant-1" ⟨"tenant-1", "Acme Corporation", "acme.erp.com", true,
        [("timezone", "UTC"), ("currency", "USD")]⟩).2.2.2 (by decide) rfl
